import Mathlib

/-!
Verification of the tui-textarea widget's viewport/scroll engine (src/src/widget.rs)
and of the `ded` editor shell (src/ded/src/main.rs): buffer saving, buffer switching
and the modal search overlay.

Conventions of the embedding:
* Rust `u64`/`usize` quantities in the scroll algorithm are embedded as `Nat`; the
  algorithm's arithmetic is faithful to the source wherever the 64-bit values do not
  overflow (window lengths come from `u16` dimensions, so no reachable input overflows
  in the pure scroll algorithm itself).
* Rust arithmetic whose result can underflow/overflow the machine width is embedded
  as a checked operation returning `Option` (`none` models the overflow panic raised
  when Rust's overflow checks are enabled).
* Rust `String`s manipulated by the editor are embedded as `List Char`; file contents
  are `List Char` as well.
-/

/-- Embeds `next_scroll_top` (src/src/widget.rs lines 95-103) over `Nat`:
if the cursor is above/left of the previous top, scroll to the cursor; if it is
at or past the end of the window, scroll so the cursor is the last visible cell;
otherwise keep the previous top. In the source all three quantities are `u64`;
`cursor + 1 - length` matches Rust because in that branch
`length <= prev_top + length <= cursor < cursor + 1`. -/
def nextScrollTop (prevTop cursor length : Nat) : Nat :=
  if cursor < prevTop then cursor
  else if prevTop + length ≤ cursor then cursor + 1 - length
  else prevTop

/-- Checked `u64` subtraction: `none` models the underflow panic of Rust's plain
`-` when overflow checks are enabled (in release builds the value wraps). -/
def checkedSub (a b : Nat) : Option Nat :=
  if b ≤ a then some (a - b) else none

/-- Fuel-driven decimal digit count; the fuel `n` itself bounds the number of
divisions by 10. -/
def numDigitsFuel : Nat → Nat → Nat
  | 0, _ => 1
  | fuel + 1, n => if n < 10 then 1 else numDigitsFuel fuel (n / 10) + 1

/-- Modelled from the spec: `util::num_digits` (src/util.rs is not among the sources);
the spec calls it `digit_count`, the number of decimal digits, with
`digit_count 0 = 1`. -/
def numDigits (n : Nat) : Nat := numDigitsFuel n n

/-- Embeds the line-number gutter width of `Renderer::render`
(src/src/widget.rs lines 109-113): `num_digits(row) + 1` when a line number style is
set — `row` being the CURSOR row — else `0`. -/
def lineNumberOffset (hasLineNumbers : Bool) (cursorRow : Nat) : Nat :=
  if hasLineNumbers then numDigits cursorRow + 1 else 0

/-- Embeds the column window length passed to the cursor-follow computation at
src/src/widget.rs line 115: `u64::from(width) - line_number_offset`, an unchecked
`u64` subtraction (hence `Option`). -/
def colLengthPassed (width cursorRow : Nat) (hasLineNumbers : Bool) : Option Nat :=
  checkedSub width (lineNumberOffset hasLineNumbers cursorRow)

/-- Embeds the scroll-top computation of `Renderer::render`
(src/src/widget.rs lines 105-115 and 131-133): the row top follows the cursor row
using the viewport height; the column top follows the cursor column using the width
reduced by the line-number gutter. `none` models a panic: either the unchecked
width subtraction at line 115 underflows, or the `top_col.try_into::<u16>().unwrap()`
at line 132 (reached when `top_col != 0`) fails because `top_col` exceeds 65535. -/
def renderScroll (prevTopRow prevTopCol row col width height : Nat)
    (hasLineNumbers : Bool) : Option (Nat × Nat) :=
  let topRow := nextScrollTop prevTopRow row height
  match colLengthPassed width row hasLineNumbers with
  | none => none
  | some colLen =>
    let topCol := nextScrollTop prevTopCol col colLen
    if topCol ≠ 0 ∧ 65536 ≤ topCol then none
    else some (topRow, topCol)

/-- Embeds the visible-slice upper bound of `Renderer::text`
(src/src/widget.rs line 68): `bottom_row = min(top_row + height, lines_len)`. -/
def bottomRow (topRow height linesLen : Nat) : Nat :=
  min (topRow + height) linesLen

/-- Written from the spec's words, for comparison against the source: the greatest
row index of the visible slice `[top_row, min(top_row + height, lines_len))`. -/
def maxVisibleRow (topRow height linesLen : Nat) : Nat :=
  bottomRow topRow height linesLen - 1

/-- Written from the spec's words, for comparison against the source: a column
window length of `width - (digit_count(max_visible_row) + 1)`. -/
def specColumnLength (width topRow height linesLen : Nat) : Nat :=
  width - (numDigits (maxVisibleRow topRow height linesLen) + 1)

/-- C1: for every previous top `t`, cursor coordinate `c` and window length `L > 0`,
the recomputed top `t'` of `next_scroll_top` satisfies `t' ≤ c ≤ t' + L - 1`:
the cursor lies within the recomputed window. -/
theorem nextScrollTop_cursor_visible (t c L : Nat) (hL : 0 < L) :
    nextScrollTop t c L ≤ c ∧ c ≤ nextScrollTop t c L + L - 1 := by
  unfold nextScrollTop
  split_ifs <;> omega

theorem nextScrollTop_cursor_visible_witness :
    nextScrollTop 7 2 3 ≤ 2 ∧ 2 ≤ nextScrollTop 7 2 3 + 3 - 1 :=
  nextScrollTop_cursor_visible 7 2 3 (by decide)

/-- C2: if the cursor coordinate `c` already lies within `[t, t + L - 1]` for a
window length `L > 0`, then `next_scroll_top` keeps the previous top `t` exactly
(no scroll jitter). -/
theorem nextScrollTop_no_jitter (t c L : Nat) (hL : 0 < L) (h1 : t ≤ c)
    (h2 : c ≤ t + L - 1) : nextScrollTop t c L = t := by
  unfold nextScrollTop
  split_ifs <;> omega

theorem nextScrollTop_no_jitter_witness : nextScrollTop 2 3 5 = 2 :=
  nextScrollTop_no_jitter 2 3 5 (by decide) (by decide) (by decide)

/-- C10: whenever the cursor row is a valid line index, the recomputed top row is
at most `min(top_row + height, total_lines)`, so the slice
`lines[top_row..bottom_row]` taken by `Renderer::text` is in bounds. -/
theorem renderSlice_in_bounds (prev row height linesLen : Nat)
    (h : row < linesLen) :
    nextScrollTop prev row height ≤
      bottomRow (nextScrollTop prev row height) height linesLen := by
  unfold nextScrollTop bottomRow
  split_ifs <;> omega

theorem renderSlice_in_bounds_witness :
    nextScrollTop 4 9 5 ≤ bottomRow (nextScrollTop 4 9 5) 5 10 :=
  renderSlice_in_bounds 4 9 5 10 (by decide)

/-- C3: evaluation of the render scroll computation at a zero-width rectangle with
line numbers enabled (cursor at the origin, previous tops 0): the unchecked
subtraction `u64::from(width) - line_number_offset` at src/src/widget.rs line 115
underflows (`0 - 2`), which panics when overflow checks are enabled — contradicting
the claim that every subtraction in the scroll computation is saturating or
checked and that render never panics on zero-sized rectangles. -/
theorem renderScroll_zero_width_underflows :
    renderScroll 0 0 0 0 0 5 true = none := by decide

/-- C4 counterexample: with viewport width 80, height 25, 30 total lines, cursor at
row 5 and previous top row 0, the code passes `80 - (num_digits(5) + 1) = 78`
columns to the cursor-follow computation, while the claimed formula
`width - (digit_count(max_visible_row) + 1)` gives `80 - (digit_count(24) + 1) = 77`:
the code uses the cursor's row, not the greatest visible row. -/
theorem gutter_width_claim_counterexample :
    colLengthPassed 80 5 true = some 78 ∧
      specColumnLength 80 (nextScrollTop 0 5 25) 25 30 = 77 ∧
      (78 : Nat) ≠ 77 := by decide

/-- C4 (amended): whenever line numbers are enabled and the gutter fits in the
viewport width, the column window length passed to the cursor-follow computation is
the width minus `num_digits(cursor_row) + 1`; when line numbers are disabled the
reduction is 0. -/
theorem gutter_width_amended (width cursorRow : Nat)
    (h : numDigits cursorRow + 1 ≤ width) :
    colLengthPassed width cursorRow true =
        some (width - (numDigits cursorRow + 1)) ∧
      colLengthPassed width cursorRow false = some width := by
  constructor
  · simp [colLengthPassed, checkedSub, lineNumberOffset, h]
  · simp [colLengthPassed, checkedSub, lineNumberOffset]

theorem gutter_width_amended_witness :
    colLengthPassed 80 5 true = some (80 - (numDigits 5 + 1)) ∧
      colLengthPassed 80 5 false = some 80 :=
  gutter_width_amended 80 5 (by decide)

/-- Embeds the write loop of `Buffer::save` (src/ded/src/main.rs lines 382-394):
every line except the last is written newline-terminated; the last line is written
and newline-terminated only when it is nonempty (`f.write_all(line); f.write_all(b"\n")`
for `lines.iter().take(lines.len() - 1)`, then the conditional newline for
`lines.last()`). -/
def serializeLines : List (List Char) → List Char
  | [] => []
  | [last] => last ++ if last = [] then [] else ['\n']
  | l :: rest => l ++ '\n' :: serializeLines rest

/-- Embeds `Buffer` of src/ded/src/main.rs (lines 342-347) restricted to the fields
`save` touches: the document's line sequence and the `modified` flag. -/
structure Buffer where
  lines : List (List Char)
  modified : Bool
deriving DecidableEq

/-- Embeds `Buffer::save` (src/ded/src/main.rs lines 377-398): an unmodified buffer
returns early without writing (`none`); a modified buffer writes the serialized
lines and clears `modified`. -/
def Buffer.save (b : Buffer) : Option (List Char) × Buffer :=
  if b.modified then (some (serializeLines b.lines), { b with modified := false })
  else (none, b)

/-- Modelled from the spec: splitting file content at newline characters
(`TextArea::new_from_file` / the file-read collaborator of spec section 6 are not
among the sources). Plain split: every `'\n'` ends a segment, so content ending in
`'\n'` yields a trailing empty segment here. -/
def splitOnNl : List Char → List (List Char)
  | [] => [[]]
  | c :: cs =>
    if c = '\n' then [] :: splitOnNl cs
    else
      match splitOnNl cs with
      | [] => [[c]]
      | l :: ls => (c :: l) :: ls

/-- Modelled from the spec: "read whole file into a line sequence" (spec section 6).
A single trailing newline terminator does not produce an extra empty line, and an
empty file yields one empty line (matching line-reader semantics). -/
def readLines (content : List Char) : List (List Char) :=
  let parts := splitOnNl content
  if parts.getLast? = some ([] : List Char) ∧ 1 < parts.length then parts.dropLast
  else parts

theorem splitOnNl_append_line (l : List Char) (t : List Char)
    (h : ('\n' : Char) ∉ l) :
    splitOnNl (l ++ '\n' :: t) = l :: splitOnNl t := by
  induction l with
  | nil => simp [splitOnNl]
  | cons c cs ih =>
    have hc : c ≠ '\n' := fun hceq => h (hceq ▸ List.mem_cons_self c cs)
    have hcs : ('\n' : Char) ∉ cs := fun hm => h (List.mem_cons_of_mem c hm)
    simp only [List.cons_append, splitOnNl, List.append_eq, if_neg hc, ih hcs]

theorem splitOnNl_serialize (ls : List (List Char)) (hne : ls ≠ [])
    (hnl : ∀ l ∈ ls, ('\n' : Char) ∉ l) (hlast : ls.getLast? ≠ some []) :
    splitOnNl (serializeLines ls) = ls ++ [[]] := by
  induction ls with
  | nil => exact absurd rfl hne
  | cons l rest ih =>
    cases rest with
    | nil =>
      have hl : l ≠ [] := by
        intro h
        exact hlast (by simp [h])
      have hnl' : ('\n' : Char) ∉ l := hnl l (List.mem_cons_self l [])
      have : serializeLines [l] = l ++ '\n' :: [] := by
        simp [serializeLines, hl]
      rw [this, splitOnNl_append_line l [] hnl']
      simp [splitOnNl]
    | cons l2 rest2 =>
      have hser : serializeLines (l :: l2 :: rest2) =
          l ++ '\n' :: serializeLines (l2 :: rest2) := rfl
      have hnl' : ('\n' : Char) ∉ l := hnl l (List.mem_cons_self l _)
      have hnlrest : ∀ x ∈ l2 :: rest2, ('\n' : Char) ∉ x :=
        fun x hx => hnl x (List.mem_cons_of_mem l hx)
      have hlastrest : (l2 :: rest2).getLast? ≠ some [] := by
        intro h
        apply hlast
        rw [List.getLast?_cons_cons]
        exact h
      rw [hser, splitOnNl_append_line l _ hnl',
        ih (List.cons_ne_nil l2 rest2) hnlrest hlastrest]
      rfl

theorem readLines_serialize (ls : List (List Char)) (hne : ls ≠ [])
    (hnl : ∀ l ∈ ls, ('\n' : Char) ∉ l) (hlast : ls.getLast? ≠ some []) :
    readLines (serializeLines ls) = ls := by
  unfold readLines
  rw [splitOnNl_serialize ls hne hnl hlast]
  have hget : (ls ++ [[]]).getLast? = some ([] : List Char) :=
    List.getLast?_concat ls
  have hlen : 1 < (ls ++ [([] : List Char)]).length := by
    rw [List.length_append]
    have : 0 < ls.length := List.length_pos.mpr hne
    simp only [List.length_singleton]
    omega
  rw [if_pos ⟨hget, hlen⟩]
  exact List.dropLast_concat

/-- C5 counterexample: the line sequences `["a"]` and `["a", ""]` serialize to the
same file content `"a\n"`, so write-then-read cannot reproduce both exactly; with
the modelled reader, reading back the saved content of `["a", ""]` yields `["a"]`,
losing the trailing empty line: round-tripping does not preserve
trailing-newline presence as claimed. -/
theorem save_roundtrip_counterexample :
    serializeLines [['a']] = serializeLines [['a'], []] ∧
      readLines (serializeLines [['a'], []]) = [['a']] ∧
      ([['a']] : List (List Char)) ≠ [['a'], []] := by decide

/-- C5 (amended): saving an unmodified buffer performs no write and leaves
`modified = false`; saving a modified buffer clears `modified` and writes every
line newline-terminated except that an empty trailing last line contributes no
extra newline; and write-then-read reproduces the exact line sequence whenever the
last line is nonempty (a trailing empty last line is conflated with its absence:
both serialize to identical content). -/
theorem buffer_save_correct :
    (∀ b : Buffer, b.modified = false → b.save = (none, b)) ∧
      (∀ b : Buffer, b.modified = true →
        (b.save).1 = some (serializeLines b.lines) ∧ (b.save).2.modified = false) ∧
      (∀ ls : List (List Char), ls ≠ [] → (∀ l ∈ ls, ('\n' : Char) ∉ l) →
        ls.getLast? ≠ some [] → readLines (serializeLines ls) = ls) := by
  refine ⟨?_, ?_, ?_⟩
  · intro b h
    simp [Buffer.save, h]
  · intro b h
    simp [Buffer.save, h]
  · exact readLines_serialize

theorem buffer_save_correct_witness :
    Buffer.save ⟨[['a']], false⟩ = (none, ⟨[['a']], false⟩) ∧
      (Buffer.save ⟨[['a'], ['b']], true⟩).1 =
        some (serializeLines [['a'], ['b']]) ∧
      readLines (serializeLines [['a'], ['b']]) = [['a'], ['b']] :=
  ⟨buffer_save_correct.1 ⟨[['a']], false⟩ rfl,
    (buffer_save_correct.2.1 ⟨[['a'], ['b']], true⟩ rfl).1,
    buffer_save_correct.2.2 [['a'], ['b']] (by decide) (by decide) (by decide)⟩

/-- Embeds the editor state touched by the digit-switch branch of
`Editor::process_input` (src/ded/src/main.rs lines 36-41, 116-127): the active
buffer index, the number of open buffers, and the transient status message. -/
structure EdState where
  current : Nat
  numBuffers : Nat
  message : Option String
deriving DecidableEq

/-- Embeds the index computation `(char as u32 - '1' as u32) as usize`
(src/ded/src/main.rs line 122) with checked `u32` subtraction: `none` models the
underflow panic raised when overflow checks are enabled (for `char = '0'`,
`48 - 49` underflows; in release builds it wraps to 4294967295). -/
def switchIndex (c : Char) : Option Nat :=
  if 49 ≤ c.toNat then some (c.toNat - 49) else none

/-- Embeds the `alt + ascii digit` branch of `Editor::process_input`
(src/ded/src/main.rs lines 116-127): when the computed 0-based index is in range
and differs from the current index, the active buffer switches and a status
message is set; otherwise the state is untouched. `none` models the underflow
panic of the index computation. -/
def processDigitSwitch (st : EdState) (c : Char) : Option EdState :=
  match switchIndex c with
  | none => none
  | some idx =>
    if idx < st.numBuffers ∧ st.current ≠ idx then
      some { st with
        current := idx,
        message := some ("Switched to buffer #" ++ toString (idx + 1)) }
    else some st

/-- C6 counterexample: with one open buffer and active index 0, the input
`alt + '0'` does not leave the state unchanged without panicking: the `u32`
subtraction `'0' as u32 - '1' as u32` underflows (panic when overflow checks are
enabled; it wraps to the out-of-range index 4294967295 only in release builds). -/
theorem digit_switch_zero_counterexample :
    processDigitSwitch ⟨0, 1, none⟩ '0' = none ∧
      processDigitSwitch ⟨0, 1, none⟩ '0' ≠ some ⟨0, 1, none⟩ := by decide

/-- C6 (amended): for every digit `'1'`-`'9'`, when the computed 0-based index is
out of range or equals the current index, processing the event leaves the active
buffer index and the status message unchanged, silently and without panicking
(for `'0'` the index computation underflows: panic under overflow checks, a
wrap to the out-of-range index 4294967295 — hence a silent no-op — in release). -/
theorem digit_switch_out_of_range_noop (st : EdState) (c : Char)
    (h1 : 49 ≤ c.toNat) (h2 : c.toNat ≤ 57)
    (h3 : st.numBuffers ≤ c.toNat - 49 ∨ c.toNat - 49 = st.current) :
    processDigitSwitch st c = some st := by
  unfold processDigitSwitch switchIndex
  rw [if_pos h1]
  have : ¬(c.toNat - 49 < st.numBuffers ∧ st.current ≠ c.toNat - 49) := by
    rcases h3 with h | h
    · intro hc
      omega
    · intro hc
      exact hc.2 h.symm
  simp only [this, if_neg, not_false_eq_true]

theorem digit_switch_out_of_range_noop_witness :
    processDigitSwitch ⟨0, 1, none⟩ '9' = some ⟨0, 1, none⟩ :=
  digit_switch_out_of_range_noop ⟨0, 1, none⟩ '9' (by decide) (by decide)
    (Or.inl (by decide))

/-- Embeds `SearchBox` (src/ded/src/main.rs lines 401-414): the underlying single
line `TextArea` is modelled by its line of text, plus the `open` flag. -/
structure SearchBox where
  text : List Char
  isOpen : Bool
deriving DecidableEq

/-- Modelled from the spec: `TextArea::insert_str` / `TextArea::single_line_input`
(src/textarea.rs is not among the sources). Per the SearchController invariant of
spec sections 3 and 4.3 — "pattern text is never multi-line; newline-inserting keys
are suppressed while this control has focus" — inserting into the pattern buffer
suppresses newline characters. -/
def insertPattern (text ins : List Char) : List Char :=
  text ++ ins.filter (fun c => c != '\n')

/-- Embeds `SearchBox::open` (src/ded/src/main.rs lines 418-421): sets the open
flag and hands back the current first line as the previously-remembered pattern. -/
def SearchBox.openBox (sb : SearchBox) : List Char × SearchBox :=
  (sb.text, { sb with isOpen := true })

/-- Embeds `SearchBox::close` (src/ded/src/main.rs lines 423-428): clears the open
flag; the textarea is kept (only the cursor moves to the end), so the pattern text
survives for the next open. -/
def SearchBox.closeBox (sb : SearchBox) : SearchBox :=
  { sb with isOpen := false }

/-- Embeds `SearchBox::height` (src/ded/src/main.rs lines 430-436): 3 rows when
open, 0 when closed. -/
def SearchBox.height (sb : SearchBox) : Nat :=
  if sb.isOpen then 3 else 0

/-- Embeds `SearchBox::set_pattern` (src/ded/src/main.rs lines 438-441):
`delete_line` empties the single line, then `insert_str` installs the pattern. -/
def SearchBox.setPattern (sb : SearchBox) (p : List Char) : SearchBox :=
  { sb with text := insertPattern [] p }

/-- Input events reaching `SearchBox::input`: the Enter key, a printable character,
or a deletion (standing for the generic editing inputs of the pattern editor). -/
inductive SBKey where
  | enter : SBKey
  | char : Char → SBKey
  | backspace : SBKey

/-- Modelled from the spec: the effect of `TextArea::single_line_input` on the
single line of text (src/textarea.rs is not among the sources): characters are
inserted (newline characters suppressed per the single-line invariant), deletion
removes the last character. -/
def singleLineEdit (text : List Char) : SBKey → List Char
  | SBKey.enter => text
  | SBKey.char c => insertPattern text [c]
  | SBKey.backspace => text.dropLast

/-- Embeds `SearchBox::input` (src/ded/src/main.rs lines 443-451): Enter is
explicitly discarded (inputs inserting a newline are disabled); every other input
is given to the single-line textarea. -/
def SearchBox.inputKey (sb : SearchBox) (k : SBKey) : SearchBox :=
  match k with
  | SBKey.enter => sb
  | k => { sb with text := singleLineEdit sb.text k }

/-- Folds a whole key sequence through `SearchBox::input`. -/
def applyKeys (sb : SearchBox) : List SBKey → SearchBox
  | [] => sb
  | k :: ks => applyKeys (sb.inputKey k) ks

/-- Embeds the open-search branch of `Editor::process_input`
(src/ded/src/main.rs lines 172-186): `search.open()` yields the remembered
pattern, `take_selection()` (modelled by the `selection` argument, as the selected
text if any) overrides it, and `set_pattern` installs the chosen seed. -/
def openSearch (selection : Option (List Char)) (sb : SearchBox) : SearchBox :=
  let (prev, sb1) := sb.openBox
  sb1.setPattern (selection.getD prev)

theorem insertPattern_no_newline (text ins : List Char)
    (h : ('\n' : Char) ∉ text) : ('\n' : Char) ∉ insertPattern text ins := by
  intro hm
  rcases List.mem_append.mp hm with hm | hm
  · exact h hm
  · have := (List.mem_filter.mp hm).2
    simp at this

theorem inputKey_no_newline (sb : SearchBox) (k : SBKey)
    (h : ('\n' : Char) ∉ sb.text) : ('\n' : Char) ∉ (sb.inputKey k).text := by
  cases k with
  | enter => exact h
  | char c => exact insertPattern_no_newline sb.text [c] h
  | backspace =>
    intro hm
    exact h (List.dropLast_subset sb.text hm)

theorem applyKeys_no_newline (ks : List SBKey) (sb : SearchBox)
    (h : ('\n' : Char) ∉ sb.text) : ('\n' : Char) ∉ (applyKeys sb ks).text := by
  induction ks generalizing sb with
  | nil => exact h
  | cons k ks ih => exact ih (sb.inputKey k) (inputKey_no_newline sb k h)

theorem openSearch_no_newline (selection : Option (List Char)) (sb : SearchBox) :
    ('\n' : Char) ∉ (openSearch selection sb).text :=
  insertPattern_no_newline [] _ (by simp)

/-- C9: the pattern text is single-line at all times: for every seed installed by
`set_pattern` on open (whether taken from a selection or from the remembered
pattern) and every input sequence processed while the overlay is open, the
pattern edit buffer never contains a newline. -/
theorem searchPattern_single_line (selection : Option (List Char))
    (sb : SearchBox) (ks : List SBKey) :
    ('\n' : Char) ∉ (applyKeys (openSearch selection sb) ks).text :=
  applyKeys_no_newline ks (openSearch selection sb)
    (openSearch_no_newline selection sb)

theorem searchPattern_single_line_witness :
    ('\n' : Char) ∉
      (applyKeys (openSearch (some ['a', '\n', 'b']) ⟨[], false⟩)
        [SBKey.char 'x']).text :=
  searchPattern_single_line (some ['a', '\n', 'b']) ⟨[], false⟩ [SBKey.char 'x']

/-- C7: the pattern survives a cancel: after opening search (with any seed) and
typing any key sequence, cancelling (close, which keeps the textarea) and opening
again with no active selection shows the same pattern text in the overlay's edit
buffer. -/
theorem cancel_preserves_pattern (selection : Option (List Char))
    (sb : SearchBox) (ks : List SBKey) :
    (openSearch none (applyKeys (openSearch selection sb) ks).closeBox).text =
      (applyKeys (openSearch selection sb) ks).text := by
  have hnl : ('\n' : Char) ∉ (applyKeys (openSearch selection sb) ks).text :=
    applyKeys_no_newline ks _ (openSearch_no_newline selection sb)
  show insertPattern []
      (applyKeys (openSearch selection sb) ks).closeBox.text = _
  unfold insertPattern
  rw [List.nil_append, List.filter_eq_self.mpr]
  · rfl
  · intro c hc
    have : c ≠ '\n' := fun heq => hnl (heq ▸ hc)
    simpa using this

theorem cancel_preserves_pattern_witness :
    (openSearch none
        (applyKeys (openSearch none ⟨['a'], false⟩)
          [SBKey.char 'b', SBKey.char 'c']).closeBox).text =
      (applyKeys (openSearch none ⟨['a'], false⟩)
        [SBKey.char 'b', SBKey.char 'c']).text :=
  cancel_preserves_pattern none ⟨['a'], false⟩ [SBKey.char 'b', SBKey.char 'c']

/-- Embeds the editor state touched when the search overlay handles a key
(src/ded/src/main.rs lines 137-170): the buffer's search box, the buffer cursor,
the engine-side search pattern (`set_search_pattern`), the top-level transient
status message, and the overlay's inline error (`SearchBox::set_error`). -/
structure SearchSession where
  sb : SearchBox
  cursor : Nat × Nat
  enginePattern : List Char
  message : Option String
  overlayError : Option String
deriving DecidableEq

/-- Embeds the Enter branch of the open-search input handling
(src/ded/src/main.rs lines 153-159): `textarea.search_forward(true)` jumps the
cursor to the first match when one exists (the match position `firstMatch` comes
from the search engine, which is modelled from the spec: "attempts to jump to the
first match; cursor remains at match location if found, unchanged otherwise");
on failure the top-level message is set; then `search.close()` and
`textarea.set_search_pattern("")` run unconditionally. The overlay's inline error
is not touched in this branch. -/
def confirmSearch (st : SearchSession) (firstMatch : Option (Nat × Nat)) :
    SearchSession :=
  let st1 :=
    match firstMatch with
    | some pos => { st with cursor := pos }
    | none => { st with message := some "Pattern not found" }
  { st1 with sb := st1.sb.closeBox, enginePattern := [] }

/-- C8: confirming the search in an open overlay when no match exists leaves the
buffer cursor unchanged, closes the overlay (its height becomes 0), clears the
engine-side search pattern, sets the "Pattern not found" transient status message
at the top level, and leaves the overlay's inline error untouched. -/
theorem confirm_no_match (st : SearchSession) (h : st.sb.isOpen = true) :
    (confirmSearch st none).cursor = st.cursor ∧
      (confirmSearch st none).sb.isOpen = false ∧
      (confirmSearch st none).sb.height = 0 ∧
      (confirmSearch st none).enginePattern = [] ∧
      (confirmSearch st none).message = some "Pattern not found" ∧
      (confirmSearch st none).overlayError = st.overlayError := by
  refine ⟨rfl, rfl, ?_, rfl, rfl, rfl⟩
  simp [confirmSearch, SearchBox.closeBox, SearchBox.height]

theorem confirm_no_match_witness :
    (confirmSearch ⟨⟨['a'], true⟩, (3, 4), ['a'], none, none⟩ none).cursor =
        (3, 4) ∧
      (confirmSearch ⟨⟨['a'], true⟩, (3, 4), ['a'], none, none⟩ none).sb.isOpen =
        false ∧
      (confirmSearch ⟨⟨['a'], true⟩, (3, 4), ['a'], none, none⟩ none).sb.height =
        0 ∧
      (confirmSearch ⟨⟨['a'], true⟩, (3, 4), ['a'], none, none⟩
            none).enginePattern = [] ∧
      (confirmSearch ⟨⟨['a'], true⟩, (3, 4), ['a'], none, none⟩ none).message =
        some "Pattern not found" ∧
      (confirmSearch ⟨⟨['a'], true⟩, (3, 4), ['a'], none, none⟩
          none).overlayError = none :=
  confirm_no_match ⟨⟨['a'], true⟩, (3, 4), ['a'], none, none⟩ rfl
